import Mathlib

/-!
# PLPNet (`nets/PLPNet.py`) — shallow embedding and verification

This file embeds the channel/shape semantics of the PLPNet detection model
(`YOLOXHead`, `SD_PFAN`, `YoloBody` from `nets/PLPNet.py`) and proves the
spec claims about it.

Modelling choices:
* A tensor is `(N, C, H, W)` with the channel axis kept as an explicit list
  of channel planes; a plane (the `(N, H, W)` spatial content of a single
  channel) is an abstract type `α`.  `torch.cat(..., dim=1)` is list append
  (after the dim-0/2/3 compatibility check torch performs).
* Convolution-like primitives (`nn.Conv2d`, `nn.ConvTranspose2d`, `BaseConv`,
  `DWConv`, `SAConv2d`) are shape-transforming operators with declared
  in/out channel counts and kernel/stride/padding, carrying an opaque
  learned-weight function producing the output planes.  The spatial rule is
  the standard torch one: `out = (in + 2p - k) / s + 1` for convolutions and
  `out = (in - 1) * s - 2p + k + output_padding` for transposed convolutions.
* Width/depth multipliers in the source are the Python float literals
  0.25, 0.375, 0.5, 0.75, 1.0, 1.25 (and 0.33, 0.67, 1.33 for depth), all of
  which are exact decimals with at most three fractional digits; they are
  modelled as exact integer thousandths.  Python `int(x)` truncates toward
  zero, which on the nonnegative products appearing here is floor division.
-/

namespace PLPNet

/-- Error taxonomy of the spec: shape/channel mismatch surfaced by a tensor
operator, a missing named backbone feature level, an unknown size-profile
name, and a bad list index (Python `IndexError`). -/
inductive NetErr where
  | shapeMismatch
  | missingFeatureLevel
  | unknownProfile
  | indexError
deriving DecidableEq, Repr

/-- A `(N, C, H, W)` tensor: the channel axis is an explicit list whose
entries are abstract channel planes of type `α`. -/
structure Tensor (α : Type) where
  n : Nat
  h : Nat
  w : Nat
  chans : List α
deriving DecidableEq, Repr

/-- Channel count of a tensor. -/
def Tensor.channels (t : Tensor α) : Nat := t.chans.length

instance {ε α : Type} [DecidableEq ε] [DecidableEq α] : DecidableEq (Except ε α) := by
  intro a b
  cases a <;> cases b <;> first
    | (apply isFalse; intro h; exact Except.noConfusion h)
    | (rename_i x y
       exact match decEq x y with
       | isTrue h => isTrue (by rw [h])
       | isFalse h => isFalse (by intro hh; cases hh; exact h rfl))

/-- A width/depth multiplier, stored as exact integer thousandths
(0.25 ↦ 250, 0.375 ↦ 375, …). -/
structure Mult where
  milli : Nat
deriving DecidableEq, Repr

/-- Python `int(c * width)` for a nonnegative product: truncation toward
zero, i.e. floor.  All multipliers in the profile table are exact decimals,
so `c * width` is computed exactly as `c * milli / 1000`. -/
def intScale (c : Nat) (w : Mult) : Nat := c * w.milli / 1000

/-- Round-to-nearest scaling (ties away from zero), used to compare the
implementation's truncating `intScale` with the spec's
"scaled by `w` and rounded to nearest integer". -/
def roundScale (c : Nat) (w : Mult) : Nat := (c * w.milli + 500) / 1000

/-- An opaque learned-weight function: from the list of input channel
planes, produce the plane of a given output channel index. -/
abbrev Weights (α : Type) := List α → Nat → α

/-- Embeds `torch.cat([a, b], dim=1)`: checks that the non-channel dims agree and
appends the channel lists. -/
def catChannels (a b : Tensor α) : Except NetErr (Tensor α) :=
  if a.n = b.n ∧ a.h = b.h ∧ a.w = b.w then
    .ok ⟨a.n, a.h, a.w, a.chans ++ b.chans⟩
  else .error .shapeMismatch

/-- Channel slice `t[:, lo:hi]`. -/
def sliceChannels (t : Tensor α) (lo hi : Nat) : Tensor α :=
  ⟨t.n, t.h, t.w, (t.chans.drop lo).take (hi - lo)⟩

/-- A 2-d convolution operator (`nn.Conv2d`, and the conv+BN+act blocks
`BaseConv` / `DWConv` and `mmcv`'s `SAConv2d`, whose normalization /
activation / switchable-receptive-field parts are channelwise and
shape-preserving, hence absorbed into the opaque weight function). -/
structure Conv2d (α : Type) where
  inCh : Nat
  outCh : Nat
  k : Nat
  s : Nat
  p : Nat
  weight : Weights α

/-- Apply a convolution: the input channel count must match the declared
one (else torch raises, modelled as `shapeMismatch`); the output has the
declared number of channels and spatial size `(in + 2p - k) / s + 1`. -/
def Conv2d.apply (c : Conv2d α) (t : Tensor α) : Except NetErr (Tensor α) :=
  if t.chans.length = c.inCh then
    .ok ⟨t.n, (t.h + 2 * c.p - c.k) / c.s + 1, (t.w + 2 * c.p - c.k) / c.s + 1,
         (List.range c.outCh).map (c.weight t.chans)⟩
  else .error .shapeMismatch

/-- A transposed convolution (`nn.ConvTranspose2d`). -/
structure ConvTranspose2d (α : Type) where
  inCh : Nat
  outCh : Nat
  k : Nat
  s : Nat
  p : Nat
  outPad : Nat
  weight : Weights α

/-- Apply a transposed convolution: output spatial size is
`(in - 1) * s + k + output_padding - 2p`. -/
def ConvTranspose2d.apply (c : ConvTranspose2d α) (t : Tensor α) :
    Except NetErr (Tensor α) :=
  if t.chans.length = c.inCh then
    .ok ⟨t.n, (t.h - 1) * c.s + c.k + c.outPad - 2 * c.p,
         (t.w - 1) * c.s + c.k + c.outPad - 2 * c.p,
         (List.range c.outCh).map (c.weight t.chans)⟩
  else .error .shapeMismatch

/-- Modelled from the spec: the attention-gating submodule `LRAM`
(repository file `nets/LRAM.py`, not present under `src/`) is an external
collaborator with contract `gate : FeatureTensor -> FeatureTensor` of
identical `(C, H, W)`; it is a learned channel-reweighting, modelled as an
opaque weight function producing one output plane per input channel. -/
structure LRAM (α : Type) where
  inCh : Nat
  weight : Weights α

/-- Apply the attention gate: shape-preserving on a tensor whose channel
count matches the declared one. -/
def LRAM.apply (g : LRAM α) (t : Tensor α) : Except NetErr (Tensor α) :=
  if t.chans.length = g.inCh then
    .ok ⟨t.n, t.h, t.w, (List.range t.chans.length).map (g.weight t.chans)⟩
  else .error .shapeMismatch

/-- Modelled from the spec: `BaseConv` (repository file `nets/darknet.py`,
not present under `src/`) is a conv + batch-norm + activation block with
padding `(ksize - 1) / 2`; its shape behaviour is that of `Conv2d`. -/
def mkBaseConv (inCh outCh ksize stride : Nat) (pw : Weights α) : Conv2d α :=
  ⟨inCh, outCh, ksize, stride, (ksize - 1) / 2, pw⟩

/-- Modelled from the spec: `DWConv` (repository file `nets/darknet.py`,
not present under `src/`) is the depthwise-separable variant of `BaseConv`;
it declares the same in/out channels, kernel, stride and padding, hence has
the same shape rule. -/
def mkDWConv (inCh outCh ksize stride : Nat) (pw : Weights α) : Conv2d α :=
  ⟨inCh, outCh, ksize, stride, (ksize - 1) / 2, pw⟩

/-- Selects `Conv = DWConv if depthwise else BaseConv` as in the source. -/
def mkConvBlock (depthwise : Bool) (inCh outCh ksize stride : Nat)
    (pw : Weights α) : Conv2d α :=
  if depthwise then mkDWConv inCh outCh ksize stride pw
  else mkBaseConv inCh outCh ksize stride pw

/-- Embeds `mmcv.ops.SAConv2d`: switchable atrous convolution; shape-wise a plain
convolution with the declared kernel/stride/padding. -/
def mkSAConv (inCh outCh ksize stride padding : Nat) (pw : Weights α) :
    Conv2d α :=
  ⟨inCh, outCh, ksize, stride, padding, pw⟩

/-- The learned parameters of `SD_PFAN`: one opaque weight function per
constructed operator (each operator has its own independent parameters). -/
structure SD_PFANParams (α : Type) where
  pUpLM : Weights α
  pUpMH : Weights α
  pDownML : Weights α
  pDownHM : Weights α
  pResH : Weights α
  pResM : Weights α
  pResL : Weights α
  pAtt1 : Weights α
  pAtt2 : Weights α
  pAtt3 : Weights α

/-- The `SD_PFAN` module after construction.  `depth`, `width` and
`depthwise` record the constructor arguments (`depth`/`width`/`depthwise`
are forwarded to the internal `PAC_CSPDarknet` backbone, which is an
external feature extractor in the spec's scoping); the remaining fields are
the operators built in `SD_PFAN.__init__`. -/
structure SD_PFAN (α : Type) where
  depth : Mult
  width : Mult
  depthwise : Bool
  in_features : String × String × String
  upsample_L_to_M : ConvTranspose2d α
  upsample_M_to_H : ConvTranspose2d α
  downsample_M_to_L : Conv2d α
  downsample_H_to_M : Conv2d α
  resize_H : Conv2d α
  resize_M : Conv2d α
  resize_L : Conv2d α
  feat1_attention : LRAM α
  feat2_attention : LRAM α
  feat3_attention : LRAM α

/-- Embeds `SD_PFAN.__init__`: builds every operator with the channel formulas of
the source (`in_channels = [256, 512, 1024]` by default, every count scaled
by `int(_ * width)`).  `in_channels[i]` accesses are `getD i 0` (the
constructor always indexes 0..2 of the default list in this repository). -/
def SD_PFAN.init (depth : Mult) (width : Mult) (depthwise : Bool)
    (P : SD_PFANParams α)
    (in_features : String × String × String := ("dark3", "dark4", "dark5"))
    (in_channels : List Nat := [256, 512, 1024]) : SD_PFAN α :=
  let c0 := in_channels.getD 0 0
  let c1 := in_channels.getD 1 0
  let c2 := in_channels.getD 2 0
  { depth := depth
    width := width
    depthwise := depthwise
    in_features := in_features
    -- nn.ConvTranspose2d(int(in_channels[2]*width), int(in_channels[1]*width), 3, 2, 1, output_padding=1)
    upsample_L_to_M :=
      ⟨intScale c2 width, intScale c1 width, 3, 2, 1, 1, P.pUpLM⟩
    -- nn.ConvTranspose2d(int(2*in_channels[1]*width), int(in_channels[1]//2*width), 3, 2, 1, output_padding=1)
    upsample_M_to_H :=
      ⟨intScale (2 * c1) width, intScale (c1 / 2) width, 3, 2, 1, 1, P.pUpMH⟩
    -- SAConv2d(int(2*in_channels[1]*width), int(in_channels[2]*width), 3, 2, 1)
    downsample_M_to_L :=
      mkSAConv (intScale (2 * c1) width) (intScale c2 width) 3 2 1 P.pDownML
    -- SAConv2d(int(2*in_channels[0]*width), int(2*in_channels[1]*width), 3, 2, 1)
    downsample_H_to_M :=
      mkSAConv (intScale (2 * c0) width) (intScale (2 * c1) width) 3 2 1 P.pDownHM
    -- BaseConv(int(2*in_channels[0]*width), int(in_channels[0]*width), 1, 1)
    resize_H := mkBaseConv (intScale (2 * c0) width) (intScale c0 width) 1 1 P.pResH
    -- BaseConv(int(4*in_channels[1]*width), int(in_channels[1]*width), 1, 1)
    resize_M := mkBaseConv (intScale (4 * c1) width) (intScale c1 width) 1 1 P.pResM
    -- BaseConv(int(2*in_channels[2]*width), int(in_channels[2]*width), 1, 1)
    resize_L := mkBaseConv (intScale (2 * c2) width) (intScale c2 width) 1 1 P.pResL
    feat1_attention := ⟨intScale c0 width, P.pAtt1⟩
    feat2_attention := ⟨intScale c1 width, P.pAtt2⟩
    feat3_attention := ⟨intScale c2 width, P.pAtt3⟩ }

/-- The fusion graph of `SD_PFAN.forward` after the three backbone features
have been extracted: attention gates, the top-down upsample path, the
bottom-up downsample path, the three concatenations and the three 1×1
channel resizes, returned in (High, Mid, Low) order. -/
def SD_PFAN.fuse (m : SD_PFAN α) (f1 f2 f3 : Tensor α) :
    Except NetErr (Tensor α × Tensor α × Tensor α) :=
  (m.feat3_attention.apply f3).bind fun feat3 =>
  (m.feat2_attention.apply f2).bind fun feat2 =>
  (m.feat1_attention.apply f1).bind fun feat1 =>
  (m.upsample_L_to_M.apply feat3).bind fun feat3_upsample =>
  (catChannels feat2 feat3_upsample).bind fun fmapMPrs =>
  (m.upsample_M_to_H.apply fmapMPrs).bind fun fmapMPrsUp =>
  (catChannels feat1 fmapMPrsUp).bind fun fmapHOut =>
  (m.downsample_M_to_L.apply fmapMPrs).bind fun fmapMPrsDown =>
  (m.downsample_H_to_M.apply fmapHOut).bind fun fmapHOutDown =>
  (catChannels fmapHOutDown fmapMPrs).bind fun fmapMOut =>
  (catChannels feat3 fmapMPrsDown).bind fun fmapLOut =>
  (m.resize_H.apply fmapHOut).bind fun fmapHRes =>
  (m.resize_M.apply fmapMOut).bind fun fmapMRes =>
  (m.resize_L.apply fmapLOut).bind fun fmapLRes =>
  .ok (fmapHRes, fmapMRes, fmapLRes)

/-- Look up one named feature level in the backbone's output mapping
(`out_features[f]`); a missing key is the spec's `MISSING_FEATURE_LEVEL`. -/
def lookupLevel (out_features : List (String × Tensor α)) (name : String) :
    Except NetErr (Tensor α) :=
  match out_features.lookup name with
  | some t => .ok t
  | none => .error .missingFeatureLevel

/-- Embeds `SD_PFAN.forward` from the point where the backbone has produced its
output mapping: `[feat1, feat2, feat3] = [out_features[f] for f in
self.in_features]` (the three lookups run first, left to right), then the
fusion graph. -/
def SD_PFAN.forwardOnMap (m : SD_PFAN α)
    (out_features : List (String × Tensor α)) :
    Except NetErr (Tensor α × Tensor α × Tensor α) :=
  (lookupLevel out_features m.in_features.1).bind fun feat1 =>
  (lookupLevel out_features m.in_features.2.1).bind fun feat2 =>
  (lookupLevel out_features m.in_features.2.2).bind fun feat3 =>
  m.fuse feat1 feat2 feat3

/-- The learned parameters of one `YOLOXHead` scale: stem, the two conv
blocks of each branch, and the three 1×1 prediction convolutions. -/
structure HeadScaleParams (α : Type) where
  pStem : Weights α
  pCls1 : Weights α
  pCls2 : Weights α
  pClsPred : Weights α
  pReg1 : Weights α
  pReg2 : Weights α
  pRegPred : Weights α
  pObjPred : Weights α

/-- One scale of the decoupled head: the modules appended to
`stems` / `cls_convs` / `cls_preds` / `reg_convs` / `reg_preds` /
`obj_preds` at index `i` of `YOLOXHead.__init__`. -/
structure YOLOXHeadScale (α : Type) where
  stem : Conv2d α
  cls_conv1 : Conv2d α
  cls_conv2 : Conv2d α
  cls_pred : Conv2d α
  reg_conv1 : Conv2d α
  reg_conv2 : Conv2d α
  reg_pred : Conv2d α
  obj_pred : Conv2d α

/-- Loop body of `YOLOXHead.__init__` for one `i`: stem is always a
`BaseConv`; the two extra conv blocks per branch use `DWConv` when
`depthwise` is set; the prediction layers are plain `nn.Conv2d` (kernel 1,
stride 1, padding 0). -/
def mkHeadScale (num_classes : Nat) (width : Mult) (inCh : Nat)
    (depthwise : Bool) (pw : HeadScaleParams α) : YOLOXHeadScale α :=
  { stem := mkBaseConv (intScale inCh width) (intScale 256 width) 1 1 pw.pStem
    cls_conv1 := mkConvBlock depthwise (intScale 256 width) (intScale 256 width) 3 1 pw.pCls1
    cls_conv2 := mkConvBlock depthwise (intScale 256 width) (intScale 256 width) 3 1 pw.pCls2
    cls_pred := ⟨intScale 256 width, num_classes, 1, 1, 0, pw.pClsPred⟩
    reg_conv1 := mkConvBlock depthwise (intScale 256 width) (intScale 256 width) 3 1 pw.pReg1
    reg_conv2 := mkConvBlock depthwise (intScale 256 width) (intScale 256 width) 3 1 pw.pReg2
    reg_pred := ⟨intScale 256 width, 4, 1, 1, 0, pw.pRegPred⟩
    obj_pred := ⟨intScale 256 width, 1, 1, 1, 0, pw.pObjPred⟩ }

/-- The decoupled detection head after construction. -/
structure YOLOXHead (α : Type) where
  width : Mult
  depthwise : Bool
  scales : List (YOLOXHeadScale α)

/-- Embeds `YOLOXHead.__init__`: one scale per entry of `in_channels`
(`for i in range(len(in_channels))`). -/
def YOLOXHead.init (num_classes : Nat) (width : Mult) (depthwise : Bool)
    (pw : Nat → HeadScaleParams α)
    (in_channels : List Nat := [256, 512, 1024]) : YOLOXHead α :=
  ⟨width, depthwise,
   (List.range in_channels.length).map fun i =>
     mkHeadScale num_classes width (in_channels.getD i 0) depthwise (pw i)⟩

/-- The per-scale body of `YOLOXHead.forward`: stem, the two branches, and
`torch.cat([reg_output, obj_output, cls_output], 1)`. -/
def YOLOXHeadScale.forwardScale (s : YOLOXHeadScale α) (x : Tensor α) :
    Except NetErr (Tensor α) :=
  (s.stem.apply x).bind fun x1 =>
  (s.cls_conv1.apply x1).bind fun c1 =>
  (s.cls_conv2.apply c1).bind fun cls_feat =>
  (s.cls_pred.apply cls_feat).bind fun cls_output =>
  (s.reg_conv1.apply x1).bind fun r1 =>
  (s.reg_conv2.apply r1).bind fun reg_feat =>
  (s.reg_pred.apply reg_feat).bind fun reg_output =>
  (s.obj_pred.apply reg_feat).bind fun obj_output =>
  (catChannels reg_output obj_output).bind fun ro =>
  catChannels ro cls_output

/-- Embeds `for k, x in enumerate(inputs)` with per-`k` module lookup: processes
the inputs in order against the scale list; running out of scale modules is
Python's `IndexError`. -/
def headForwardAux (scales : List (YOLOXHeadScale α))
    (inputs : List (Tensor α)) : Except NetErr (List (Tensor α)) :=
  match inputs, scales with
  | [], _ => .ok []
  | x :: xs, s :: ss =>
      (s.forwardScale x).bind fun o =>
      (headForwardAux ss xs).bind fun os =>
      .ok (o :: os)
  | _ :: _, [] => .error .indexError

/-- Embeds `YOLOXHead.forward`: per-scale outputs collected in input order. -/
def YOLOXHead.forward (hd : YOLOXHead α) (inputs : List (Tensor α)) :
    Except NetErr (List (Tensor α)) :=
  headForwardAux hd.scales inputs

/-- The size-profile depth table of `YoloBody.__init__` (`depth_dict`). -/
def depth_table : List (String × Mult) :=
  [("nano", ⟨330⟩), ("tiny", ⟨330⟩), ("s", ⟨330⟩),
   ("m", ⟨670⟩), ("l", ⟨1000⟩), ("x", ⟨1330⟩)]

/-- The size-profile width table of `YoloBody.__init__` (`width_dict`). -/
def width_table : List (String × Mult) :=
  [("nano", ⟨250⟩), ("tiny", ⟨375⟩), ("s", ⟨500⟩),
   ("m", ⟨750⟩), ("l", ⟨1000⟩), ("x", ⟨1250⟩)]

/-- All learned parameters of the full model. -/
structure YoloParams (α : Type) where
  fpn : SD_PFANParams α
  head : Nat → HeadScaleParams α

/-- The detection model after construction. -/
structure YoloBody (α : Type) where
  backbone : SD_PFAN α
  head : YOLOXHead α

/-- Embeds `YoloBody.__init__`: `depth_dict[phi]` / `width_dict[phi]` (a missing
key raises before any submodule is built — `UNKNOWN_PROFILE`), `depthwise`
is forced true exactly for `"nano"`, then `SD_PFAN` and `YOLOXHead` are
built with the selected multipliers. -/
def YoloBody.init (num_classes : Nat) (phi : String) (P : YoloParams α) :
    Except NetErr (YoloBody α) :=
  match depth_table.lookup phi, width_table.lookup phi with
  | some depth, some width =>
      let depthwise := phi == "nano"
      .ok ⟨SD_PFAN.init depth width depthwise P.fpn,
           YOLOXHead.init num_classes width depthwise P.head⟩
  | _, _ => .error .unknownProfile

/-- Embeds `YoloBody.forward` from the point where the internal backbone has
produced its feature mapping: fusion, then the head applied to the fused
(High, Mid, Low) triple. -/
def YoloBody.forwardOnMap (m : YoloBody α)
    (out_features : List (String × Tensor α)) :
    Except NetErr (List (Tensor α)) :=
  (m.backbone.forwardOnMap out_features).bind fun f =>
  m.head.forward [f.1, f.2.1, f.2.2]

/-- Modelled from the spec: the `PAC_CSPDarknet` backbone (repository file
`nets/PAC_darknet.py`, not present under `src/`) returns a mapping from the
names `dark3`/`dark4`/`dark5` (strides 8/16/32) to feature tensors whose
channel counts are the width-scaled base counts 256/512/1024 and whose
spatial sizes halve from one level to the next; the stride-8 size is
`(h, w0)`.  The channel planes `d3`/`d4`/`d5` are arbitrary. -/
def backboneOutput (n h w0 : Nat) (d3 d4 d5 : List α) :
    List (String × Tensor α) :=
  [("dark3", ⟨n, h, w0, d3⟩),
   ("dark4", ⟨n, h / 2, w0 / 2, d4⟩),
   ("dark5", ⟨n, h / 4, w0 / 4, d5⟩)]

/-- A constant weight function, used to build concrete model instances. -/
def constW (a : α) : Weights α := fun _ _ => a

/-- Concrete `SD_PFAN` parameters with constant weights. -/
def constFPN (a : α) : SD_PFANParams α :=
  ⟨constW a, constW a, constW a, constW a, constW a,
   constW a, constW a, constW a, constW a, constW a⟩

/-- Concrete head-scale parameters with constant weights. -/
def constHead (a : α) : HeadScaleParams α :=
  ⟨constW a, constW a, constW a, constW a,
   constW a, constW a, constW a, constW a⟩

/-- Concrete full-model parameters with constant weights. -/
def constParams (a : α) : YoloParams α := ⟨constFPN a, fun _ => constHead a⟩

/-- The base channel counts fed to `int(_ * width)` in the source: the
`in_channels` entries 256/512/1024 and the derived formulas
`2*in_channels[1]`, `in_channels[1]//2`, `2*in_channels[0]`,
`4*in_channels[1]`, `2*in_channels[2]` (plus the head's constant 256,
already listed). -/
def baseChannelCounts : List Nat :=
  [256, 512, 1024, 2 * 512, 512 / 2, 2 * 256, 4 * 512, 2 * 1024]

/-- A concrete head instance (nano width, depthwise, one class) used to
exhibit per-scale locality on Bool channel planes. -/
def headC10 : YOLOXHead Bool := YOLOXHead.init 1 ⟨250⟩ true (fun _ => constHead true)

/-- Concrete head inputs; differs from `insB` only at index 0. -/
def insA : List (Tensor Bool) :=
  [⟨1, 1, 1, List.replicate 64 false⟩, ⟨1, 1, 1, List.replicate 128 true⟩,
   ⟨1, 1, 1, List.replicate 256 true⟩]

/-- Concrete head inputs; differs from `insA` only at index 0. -/
def insB : List (Tensor Bool) :=
  [⟨1, 1, 1, List.replicate 64 true⟩, ⟨1, 1, 1, List.replicate 128 true⟩,
   ⟨1, 1, 1, List.replicate 256 true⟩]

/-! ## Generic lemmas about the operator semantics -/

theorem exBind_ok (a : β) (f : β → Except NetErr γ) :
    (Except.ok a : Except NetErr β).bind f = f a := rfl

theorem gate_apply_shape (g : LRAM α) (n hh ww : Nat) (l : List α)
    (hc : l.length = g.inCh) :
    g.apply ⟨n, hh, ww, l⟩ = .ok ⟨n, hh, ww, (List.range g.inCh).map (g.weight l)⟩ := by
  unfold LRAM.apply
  rw [if_pos]
  · simp only [hc]
  · exact hc

theorem conv_apply_shape (c : Conv2d α) (n hh ww oh ow : Nat) (l : List α)
    (hc : l.length = c.inCh)
    (hoh : (hh + 2 * c.p - c.k) / c.s + 1 = oh)
    (how : (ww + 2 * c.p - c.k) / c.s + 1 = ow) :
    c.apply ⟨n, hh, ww, l⟩ = .ok ⟨n, oh, ow, (List.range c.outCh).map (c.weight l)⟩ := by
  unfold Conv2d.apply
  rw [if_pos]
  · rw [hoh, how]
  · exact hc

theorem convT_apply_shape (c : ConvTranspose2d α) (n hh ww oh ow : Nat)
    (l : List α) (hc : l.length = c.inCh)
    (hoh : (hh - 1) * c.s + c.k + c.outPad - 2 * c.p = oh)
    (how : (ww - 1) * c.s + c.k + c.outPad - 2 * c.p = ow) :
    c.apply ⟨n, hh, ww, l⟩ = .ok ⟨n, oh, ow, (List.range c.outCh).map (c.weight l)⟩ := by
  unfold ConvTranspose2d.apply
  rw [if_pos]
  · rw [hoh, how]
  · exact hc

theorem catChannels_shape (n hh ww : Nat) (la lb : List α) :
    catChannels ⟨n, hh, ww, la⟩ ⟨n, hh, ww, lb⟩ = .ok ⟨n, hh, ww, la ++ lb⟩ := by
  unfold catChannels
  rw [if_pos]
  exact ⟨rfl, rfl, rfl⟩

theorem Conv2d.apply_inv {c : Conv2d α} {t u : Tensor α}
    (h : c.apply t = .ok u) :
    t.chans.length = c.inCh ∧
    u = ⟨t.n, (t.h + 2 * c.p - c.k) / c.s + 1, (t.w + 2 * c.p - c.k) / c.s + 1,
         (List.range c.outCh).map (c.weight t.chans)⟩ := by
  unfold Conv2d.apply at h
  split at h
  · rename_i hcond
    exact ⟨hcond, (Except.ok.injEq _ _).mp h |>.symm⟩
  · exact absurd h (by simp)

theorem catChannels_inv {a b u : Tensor α} (h : catChannels a b = .ok u) :
    a.n = b.n ∧ a.h = b.h ∧ a.w = b.w ∧ u = ⟨a.n, a.h, a.w, a.chans ++ b.chans⟩ := by
  unfold catChannels at h
  split at h
  · rename_i hcond
    exact ⟨hcond.1, hcond.2.1, hcond.2.2, (Except.ok.injEq _ _).mp h |>.symm⟩
  · exact absurd h (by simp)

theorem mkConvBlock_eq (depthwise : Bool) (inCh outCh ksize stride : Nat)
    (pw : Weights α) :
    mkConvBlock depthwise inCh outCh ksize stride pw =
      ⟨inCh, outCh, ksize, stride, (ksize - 1) / 2, pw⟩ := by
  cases depthwise <;> rfl


/-! ## Shape analysis of the fusion graph -/

/-- Master shape lemma for the fusion graph.  Hypotheses `e1`-`e4` are the
concatenation-alignment equations between scaled channel counts (they hold
for every width of the profile table); the three inputs carry the scaled
base channel counts 256/512/1024 and exactly halving spatial sizes
(strides 8/16/32).  `fuse` succeeds and returns the (High, Mid, Low)
tensors with the scaled base channel counts and the unchanged input
spatial sizes. -/
theorem fuse_shapes (dep wid : Mult) (dw : Bool) (P : SD_PFANParams α)
    (e1 : intScale 512 wid + intScale 512 wid = intScale (2 * 512) wid)
    (e2 : intScale 256 wid + intScale (512 / 2) wid = intScale (2 * 256) wid)
    (e3 : intScale (2 * 512) wid + intScale (2 * 512) wid = intScale (4 * 512) wid)
    (e4 : intScale 1024 wid + intScale 1024 wid = intScale (2 * 1024) wid)
    (n hh ww : Nat) (hpos : 0 < hh) (wpos : 0 < ww)
    (l1 l2 l3 : List α)
    (hc1 : l1.length = intScale 256 wid)
    (hc2 : l2.length = intScale 512 wid)
    (hc3 : l3.length = intScale 1024 wid) :
    ∃ o1 o2 o3 : List α,
      (SD_PFAN.init dep wid dw P).fuse ⟨n, 4 * hh, 4 * ww, l1⟩
          ⟨n, 2 * hh, 2 * ww, l2⟩ ⟨n, hh, ww, l3⟩ =
        .ok (⟨n, 4 * hh, 4 * ww, o1⟩, ⟨n, 2 * hh, 2 * ww, o2⟩, ⟨n, hh, ww, o3⟩) ∧
      o1.length = intScale 256 wid ∧ o2.length = intScale 512 wid ∧
      o3.length = intScale 1024 wid := by
  -- attention gates (shape preserving)
  obtain ⟨G3, hG3, hG3len⟩ :
      ∃ o, (SD_PFAN.init dep wid dw P).feat3_attention.apply ⟨n, hh, ww, l3⟩ =
        .ok ⟨n, hh, ww, o⟩ ∧ o.length = intScale 1024 wid :=
    ⟨_, gate_apply_shape _ n hh ww l3 hc3, by simp [SD_PFAN.init]⟩
  obtain ⟨G2, hG2, hG2len⟩ :
      ∃ o, (SD_PFAN.init dep wid dw P).feat2_attention.apply
          ⟨n, 2 * hh, 2 * ww, l2⟩ =
        .ok ⟨n, 2 * hh, 2 * ww, o⟩ ∧ o.length = intScale 512 wid :=
    ⟨_, gate_apply_shape _ n (2 * hh) (2 * ww) l2 hc2, by simp [SD_PFAN.init]⟩
  obtain ⟨G1, hG1, hG1len⟩ :
      ∃ o, (SD_PFAN.init dep wid dw P).feat1_attention.apply
          ⟨n, 4 * hh, 4 * ww, l1⟩ =
        .ok ⟨n, 4 * hh, 4 * ww, o⟩ ∧ o.length = intScale 256 wid :=
    ⟨_, gate_apply_shape _ n (4 * hh) (4 * ww) l1 hc1, by simp [SD_PFAN.init]⟩
  -- Low -> Mid upsample
  obtain ⟨U3, hU3, hU3len⟩ :
      ∃ o, (SD_PFAN.init dep wid dw P).upsample_L_to_M.apply ⟨n, hh, ww, G3⟩ =
        .ok ⟨n, 2 * hh, 2 * ww, o⟩ ∧ o.length = intScale 512 wid :=
    ⟨_, convT_apply_shape _ n hh ww (2 * hh) (2 * ww) G3
        (by simp [SD_PFAN.init, hG3len])
        (by show (hh - 1) * 2 + 3 + 1 - 2 * 1 = 2 * hh; omega)
        (by show (ww - 1) * 2 + 3 + 1 - 2 * 1 = 2 * ww; omega),
     by simp [SD_PFAN.init]⟩
  -- Fmap_M_prs = cat(gated feat2, upsampled feat3)
  obtain ⟨MP, hMP, hMPlen⟩ :
      ∃ o, catChannels (⟨n, 2 * hh, 2 * ww, G2⟩ : Tensor α)
          ⟨n, 2 * hh, 2 * ww, U3⟩ =
        .ok ⟨n, 2 * hh, 2 * ww, o⟩ ∧ o.length = intScale (2 * 512) wid :=
    ⟨_, catChannels_shape n (2 * hh) (2 * ww) G2 U3,
     by simp [hG2len, hU3len, e1]⟩
  -- Mid -> High upsample of Fmap_M_prs
  obtain ⟨UM, hUM, hUMlen⟩ :
      ∃ o, (SD_PFAN.init dep wid dw P).upsample_M_to_H.apply
          ⟨n, 2 * hh, 2 * ww, MP⟩ =
        .ok ⟨n, 4 * hh, 4 * ww, o⟩ ∧ o.length = intScale (512 / 2) wid :=
    ⟨_, convT_apply_shape _ n (2 * hh) (2 * ww) (4 * hh) (4 * ww) MP
        (by simp [SD_PFAN.init, hMPlen])
        (by show (2 * hh - 1) * 2 + 3 + 1 - 2 * 1 = 4 * hh; omega)
        (by show (2 * ww - 1) * 2 + 3 + 1 - 2 * 1 = 4 * ww; omega),
     by simp [SD_PFAN.init]⟩
  -- Fmap_H_out = cat(gated feat1, upsampled Fmap_M_prs)
  obtain ⟨HO, hHO, hHOlen⟩ :
      ∃ o, catChannels (⟨n, 4 * hh, 4 * ww, G1⟩ : Tensor α)
          ⟨n, 4 * hh, 4 * ww, UM⟩ =
        .ok ⟨n, 4 * hh, 4 * ww, o⟩ ∧ o.length = intScale (2 * 256) wid :=
    ⟨_, catChannels_shape n (4 * hh) (4 * ww) G1 UM,
     by simp [hG1len, hUMlen, e2]⟩
  -- Fmap_M_prs downsample (SAConv2d)
  obtain ⟨DM, hDM, hDMlen⟩ :
      ∃ o, (SD_PFAN.init dep wid dw P).downsample_M_to_L.apply
          ⟨n, 2 * hh, 2 * ww, MP⟩ =
        .ok ⟨n, hh, ww, o⟩ ∧ o.length = intScale 1024 wid :=
    ⟨_, conv_apply_shape _ n (2 * hh) (2 * ww) hh ww MP
        (by simp [SD_PFAN.init, mkSAConv, hMPlen])
        (by show (2 * hh + 2 * 1 - 3) / 2 + 1 = hh; omega)
        (by show (2 * ww + 2 * 1 - 3) / 2 + 1 = ww; omega),
     by simp [SD_PFAN.init, mkSAConv]⟩
  -- Fmap_H_out downsample (SAConv2d)
  obtain ⟨DH, hDH, hDHlen⟩ :
      ∃ o, (SD_PFAN.init dep wid dw P).downsample_H_to_M.apply
          ⟨n, 4 * hh, 4 * ww, HO⟩ =
        .ok ⟨n, 2 * hh, 2 * ww, o⟩ ∧ o.length = intScale (2 * 512) wid :=
    ⟨_, conv_apply_shape _ n (4 * hh) (4 * ww) (2 * hh) (2 * ww) HO
        (by simp [SD_PFAN.init, mkSAConv, hHOlen])
        (by show (4 * hh + 2 * 1 - 3) / 2 + 1 = 2 * hh; omega)
        (by show (4 * ww + 2 * 1 - 3) / 2 + 1 = 2 * ww; omega),
     by simp [SD_PFAN.init, mkSAConv]⟩
  -- Fmap_M_out / Fmap_L_out concatenations
  obtain ⟨MO, hMO, hMOlen⟩ :
      ∃ o, catChannels (⟨n, 2 * hh, 2 * ww, DH⟩ : Tensor α)
          ⟨n, 2 * hh, 2 * ww, MP⟩ =
        .ok ⟨n, 2 * hh, 2 * ww, o⟩ ∧ o.length = intScale (4 * 512) wid :=
    ⟨_, catChannels_shape n (2 * hh) (2 * ww) DH MP,
     by simp [hDHlen, hMPlen, e3]⟩
  obtain ⟨LO, hLO, hLOlen⟩ :
      ∃ o, catChannels (⟨n, hh, ww, G3⟩ : Tensor α) ⟨n, hh, ww, DM⟩ =
        .ok ⟨n, hh, ww, o⟩ ∧ o.length = intScale (2 * 1024) wid :=
    ⟨_, catChannels_shape n hh ww G3 DM, by simp [hG3len, hDMlen, e4]⟩
  -- the three 1x1 channel resizes
  obtain ⟨RH, hRH, hRHlen⟩ :
      ∃ o, (SD_PFAN.init dep wid dw P).resize_H.apply
          ⟨n, 4 * hh, 4 * ww, HO⟩ =
        .ok ⟨n, 4 * hh, 4 * ww, o⟩ ∧ o.length = intScale 256 wid :=
    ⟨_, conv_apply_shape _ n (4 * hh) (4 * ww) (4 * hh) (4 * ww) HO
        (by simp [SD_PFAN.init, mkBaseConv, hHOlen])
        (by show (4 * hh + 2 * 0 - 1) / 1 + 1 = 4 * hh; omega)
        (by show (4 * ww + 2 * 0 - 1) / 1 + 1 = 4 * ww; omega),
     by simp [SD_PFAN.init, mkBaseConv]⟩
  obtain ⟨RM, hRM, hRMlen⟩ :
      ∃ o, (SD_PFAN.init dep wid dw P).resize_M.apply
          ⟨n, 2 * hh, 2 * ww, MO⟩ =
        .ok ⟨n, 2 * hh, 2 * ww, o⟩ ∧ o.length = intScale 512 wid :=
    ⟨_, conv_apply_shape _ n (2 * hh) (2 * ww) (2 * hh) (2 * ww) MO
        (by simp [SD_PFAN.init, mkBaseConv, hMOlen])
        (by show (2 * hh + 2 * 0 - 1) / 1 + 1 = 2 * hh; omega)
        (by show (2 * ww + 2 * 0 - 1) / 1 + 1 = 2 * ww; omega),
     by simp [SD_PFAN.init, mkBaseConv]⟩
  obtain ⟨RL, hRL, hRLlen⟩ :
      ∃ o, (SD_PFAN.init dep wid dw P).resize_L.apply ⟨n, hh, ww, LO⟩ =
        .ok ⟨n, hh, ww, o⟩ ∧ o.length = intScale 1024 wid :=
    ⟨_, conv_apply_shape _ n hh ww hh ww LO
        (by simp [SD_PFAN.init, mkBaseConv, hLOlen])
        (by show (hh + 2 * 0 - 1) / 1 + 1 = hh; omega)
        (by show (ww + 2 * 0 - 1) / 1 + 1 = ww; omega),
     by simp [SD_PFAN.init, mkBaseConv]⟩
  refine ⟨RH, RM, RL, ?_, hRHlen, hRMlen, hRLlen⟩
  simp only [SD_PFAN.fuse, hG3, hG2, hG1, hU3, hMP, hUM, hHO, hDM, hDH,
    hMO, hLO, hRH, hRM, hRL, exBind_ok]


/-! ## Shape analysis of the decoupled head -/

/-- One head scale maps an input with the declared scaled channel count and
positive spatial size to a prediction tensor of `4 + 1 + num_classes`
channels at the same spatial size. -/
theorem headScale_shape (nc : Nat) (wid : Mult) (inC : Nat) (dw : Bool)
    (pw : HeadScaleParams α) (n hh ww : Nat) (l : List α)
    (hl : l.length = intScale inC wid) (hp : 0 < hh) (wp : 0 < ww) :
    ∃ d, (mkHeadScale nc wid inC dw pw).forwardScale ⟨n, hh, ww, l⟩ =
      .ok ⟨n, hh, ww, d⟩ ∧ d.length = 4 + 1 + nc := by
  have hb1 : (mkHeadScale nc wid inC dw pw).cls_conv1 =
      ⟨intScale 256 wid, intScale 256 wid, 3, 1, 1, pw.pCls1⟩ :=
    mkConvBlock_eq dw _ _ 3 1 pw.pCls1
  have hb2 : (mkHeadScale nc wid inC dw pw).cls_conv2 =
      ⟨intScale 256 wid, intScale 256 wid, 3, 1, 1, pw.pCls2⟩ :=
    mkConvBlock_eq dw _ _ 3 1 pw.pCls2
  have hb3 : (mkHeadScale nc wid inC dw pw).reg_conv1 =
      ⟨intScale 256 wid, intScale 256 wid, 3, 1, 1, pw.pReg1⟩ :=
    mkConvBlock_eq dw _ _ 3 1 pw.pReg1
  have hb4 : (mkHeadScale nc wid inC dw pw).reg_conv2 =
      ⟨intScale 256 wid, intScale 256 wid, 3, 1, 1, pw.pReg2⟩ :=
    mkConvBlock_eq dw _ _ 3 1 pw.pReg2
  obtain ⟨X1, hX1, hX1len⟩ :
      ∃ o, (mkHeadScale nc wid inC dw pw).stem.apply ⟨n, hh, ww, l⟩ =
        .ok ⟨n, hh, ww, o⟩ ∧ o.length = intScale 256 wid :=
    ⟨_, conv_apply_shape _ n hh ww hh ww l
        (by simp [mkHeadScale, mkBaseConv, hl])
        (by show (hh + 2 * 0 - 1) / 1 + 1 = hh; omega)
        (by show (ww + 2 * 0 - 1) / 1 + 1 = ww; omega),
     by simp [mkHeadScale, mkBaseConv]⟩
  obtain ⟨C1, hC1, hC1len⟩ :
      ∃ o, (mkHeadScale nc wid inC dw pw).cls_conv1.apply ⟨n, hh, ww, X1⟩ =
        .ok ⟨n, hh, ww, o⟩ ∧ o.length = intScale 256 wid := by
    rw [hb1]
    exact ⟨_, conv_apply_shape _ n hh ww hh ww X1 (by simp [hX1len])
        (by show (hh + 2 * 1 - 3) / 1 + 1 = hh; omega)
        (by show (ww + 2 * 1 - 3) / 1 + 1 = ww; omega),
      by simp⟩
  obtain ⟨CF, hCF, hCFlen⟩ :
      ∃ o, (mkHeadScale nc wid inC dw pw).cls_conv2.apply ⟨n, hh, ww, C1⟩ =
        .ok ⟨n, hh, ww, o⟩ ∧ o.length = intScale 256 wid := by
    rw [hb2]
    exact ⟨_, conv_apply_shape _ n hh ww hh ww C1 (by simp [hC1len])
        (by show (hh + 2 * 1 - 3) / 1 + 1 = hh; omega)
        (by show (ww + 2 * 1 - 3) / 1 + 1 = ww; omega),
      by simp⟩
  obtain ⟨CO, hCO, hCOlen⟩ :
      ∃ o, (mkHeadScale nc wid inC dw pw).cls_pred.apply ⟨n, hh, ww, CF⟩ =
        .ok ⟨n, hh, ww, o⟩ ∧ o.length = nc :=
    ⟨_, conv_apply_shape _ n hh ww hh ww CF (by simp [mkHeadScale, hCFlen])
        (by show (hh + 2 * 0 - 1) / 1 + 1 = hh; omega)
        (by show (ww + 2 * 0 - 1) / 1 + 1 = ww; omega),
     by simp [mkHeadScale]⟩
  obtain ⟨R1, hR1, hR1len⟩ :
      ∃ o, (mkHeadScale nc wid inC dw pw).reg_conv1.apply ⟨n, hh, ww, X1⟩ =
        .ok ⟨n, hh, ww, o⟩ ∧ o.length = intScale 256 wid := by
    rw [hb3]
    exact ⟨_, conv_apply_shape _ n hh ww hh ww X1 (by simp [hX1len])
        (by show (hh + 2 * 1 - 3) / 1 + 1 = hh; omega)
        (by show (ww + 2 * 1 - 3) / 1 + 1 = ww; omega),
      by simp⟩
  obtain ⟨RF, hRF, hRFlen⟩ :
      ∃ o, (mkHeadScale nc wid inC dw pw).reg_conv2.apply ⟨n, hh, ww, R1⟩ =
        .ok ⟨n, hh, ww, o⟩ ∧ o.length = intScale 256 wid := by
    rw [hb4]
    exact ⟨_, conv_apply_shape _ n hh ww hh ww R1 (by simp [hR1len])
        (by show (hh + 2 * 1 - 3) / 1 + 1 = hh; omega)
        (by show (ww + 2 * 1 - 3) / 1 + 1 = ww; omega),
      by simp⟩
  obtain ⟨RO, hRO, hROlen⟩ :
      ∃ o, (mkHeadScale nc wid inC dw pw).reg_pred.apply ⟨n, hh, ww, RF⟩ =
        .ok ⟨n, hh, ww, o⟩ ∧ o.length = 4 :=
    ⟨_, conv_apply_shape _ n hh ww hh ww RF (by simp [mkHeadScale, hRFlen])
        (by show (hh + 2 * 0 - 1) / 1 + 1 = hh; omega)
        (by show (ww + 2 * 0 - 1) / 1 + 1 = ww; omega),
     by simp [mkHeadScale]⟩
  obtain ⟨OO, hOO, hOOlen⟩ :
      ∃ o, (mkHeadScale nc wid inC dw pw).obj_pred.apply ⟨n, hh, ww, RF⟩ =
        .ok ⟨n, hh, ww, o⟩ ∧ o.length = 1 :=
    ⟨_, conv_apply_shape _ n hh ww hh ww RF (by simp [mkHeadScale, hRFlen])
        (by show (hh + 2 * 0 - 1) / 1 + 1 = hh; omega)
        (by show (ww + 2 * 0 - 1) / 1 + 1 = ww; omega),
     by simp [mkHeadScale]⟩
  refine ⟨RO ++ OO ++ CO, ?_, by simp [hROlen, hOOlen, hCOlen]; omega⟩
  simp only [YOLOXHeadScale.forwardScale, hX1, hC1, hCF, hCO, hR1, hRF,
    hRO, hOO, exBind_ok, catChannels_shape]

/-- The head built over the default `[256, 512, 1024]` input channels maps
three inputs with the scaled channel counts and positive spatial sizes to
exactly three prediction tensors, in input order, each with `4 + 1 + nc`
channels at the unchanged spatial size. -/
theorem head_forward3 (nc : Nat) (wid : Mult) (dw : Bool)
    (pw : Nat → HeadScaleParams α) (n h1 w1 h2 w2 h3 w3 : Nat)
    (p1 : 0 < h1) (q1 : 0 < w1) (p2 : 0 < h2) (q2 : 0 < w2)
    (p3 : 0 < h3) (q3 : 0 < w3) (l1 l2 l3 : List α)
    (hl1 : l1.length = intScale 256 wid)
    (hl2 : l2.length = intScale 512 wid)
    (hl3 : l3.length = intScale 1024 wid) :
    ∃ d1 d2 d3 : List α,
      (YOLOXHead.init nc wid dw pw).forward
        [⟨n, h1, w1, l1⟩, ⟨n, h2, w2, l2⟩, ⟨n, h3, w3, l3⟩] =
      .ok [⟨n, h1, w1, d1⟩, ⟨n, h2, w2, d2⟩, ⟨n, h3, w3, d3⟩] ∧
      d1.length = 4 + 1 + nc ∧ d2.length = 4 + 1 + nc ∧
      d3.length = 4 + 1 + nc := by
  have hg0 : [256, 512, 1024].getD 0 0 = 256 := rfl
  have hg1 : [256, 512, 1024].getD 1 0 = 512 := rfl
  have hg2 : [256, 512, 1024].getD 2 0 = 1024 := rfl
  obtain ⟨d1, hd1, hd1len⟩ := headScale_shape nc wid 256 dw (pw 0) n h1 w1 l1 hl1 p1 q1
  obtain ⟨d2, hd2, hd2len⟩ := headScale_shape nc wid 512 dw (pw 1) n h2 w2 l2 hl2 p2 q2
  obtain ⟨d3, hd3, hd3len⟩ := headScale_shape nc wid 1024 dw (pw 2) n h3 w3 l3 hl3 p3 q3
  refine ⟨d1, d2, d3, ?_, hd1len, hd2len, hd3len⟩
  simp only [YOLOXHead.forward, YOLOXHead.init, headForwardAux, hg0, hg1, hg2,
    hd1, hd2, hd3, exBind_ok]

/-! ## Shape analysis of the composed model -/

/-- Full-pipeline shape lemma: for a profile `phi` in both tables, the
constructed model applied to the spec-modelled backbone mapping at
stride-8 size `(4*hh, 4*ww)` returns exactly three prediction tensors in
(High, Mid, Low) order with `4 + 1 + nc` channels and spatial sizes
`(4*hh, 4*ww)`, `(2*hh, 2*ww)`, `(hh, ww)`. -/
theorem yolo_forward_shapes (phi : String) (dep wid : Mult)
    (hdep : depth_table.lookup phi = some dep)
    (hwid : width_table.lookup phi = some wid)
    (e1 : intScale 512 wid + intScale 512 wid = intScale (2 * 512) wid)
    (e2 : intScale 256 wid + intScale (512 / 2) wid = intScale (2 * 256) wid)
    (e3 : intScale (2 * 512) wid + intScale (2 * 512) wid = intScale (4 * 512) wid)
    (e4 : intScale 1024 wid + intScale 1024 wid = intScale (2 * 1024) wid)
    (nc n hh ww : Nat) (hpos : 0 < hh) (wpos : 0 < ww) (P : YoloParams α)
    (d3 d4 d5 : List α)
    (hd3 : d3.length = intScale 256 wid)
    (hd4 : d4.length = intScale 512 wid)
    (hd5 : d5.length = intScale 1024 wid) :
    ∃ o1 o2 o3 : List α,
      (YoloBody.init nc phi P).bind (fun m =>
        m.forwardOnMap (backboneOutput n (4 * hh) (4 * ww) d3 d4 d5)) =
      .ok [⟨n, 4 * hh, 4 * ww, o1⟩, ⟨n, 2 * hh, 2 * ww, o2⟩, ⟨n, hh, ww, o3⟩] ∧
      o1.length = 4 + 1 + nc ∧ o2.length = 4 + 1 + nc ∧
      o3.length = 4 + 1 + nc := by
  have hinit : YoloBody.init nc phi P =
      .ok ⟨SD_PFAN.init dep wid (phi == "nano") P.fpn,
           YOLOXHead.init nc wid (phi == "nano") P.head⟩ := by
    unfold YoloBody.init
    rw [hdep, hwid]
  have hmap : backboneOutput n (4 * hh) (4 * ww) d3 d4 d5 (α := α) =
      [("dark3", ⟨n, 4 * hh, 4 * ww, d3⟩), ("dark4", ⟨n, 2 * hh, 2 * ww, d4⟩),
       ("dark5", ⟨n, hh, ww, d5⟩)] := by
    unfold backboneOutput
    rw [show 4 * hh / 2 = 2 * hh by omega, show 4 * ww / 2 = 2 * ww by omega,
        show 4 * hh / 4 = hh by omega, show 4 * ww / 4 = ww by omega]
  have hlk1 : lookupLevel
      ([("dark3", ⟨n, 4 * hh, 4 * ww, d3⟩), ("dark4", ⟨n, 2 * hh, 2 * ww, d4⟩),
        ("dark5", ⟨n, hh, ww, d5⟩)] : List (String × Tensor α))
      (SD_PFAN.init dep wid (phi == "nano") P.fpn).in_features.1 =
      .ok ⟨n, 4 * hh, 4 * ww, d3⟩ := rfl
  have hlk2 : lookupLevel
      ([("dark3", ⟨n, 4 * hh, 4 * ww, d3⟩), ("dark4", ⟨n, 2 * hh, 2 * ww, d4⟩),
        ("dark5", ⟨n, hh, ww, d5⟩)] : List (String × Tensor α))
      (SD_PFAN.init dep wid (phi == "nano") P.fpn).in_features.2.1 =
      .ok ⟨n, 2 * hh, 2 * ww, d4⟩ := rfl
  have hlk3 : lookupLevel
      ([("dark3", ⟨n, 4 * hh, 4 * ww, d3⟩), ("dark4", ⟨n, 2 * hh, 2 * ww, d4⟩),
        ("dark5", ⟨n, hh, ww, d5⟩)] : List (String × Tensor α))
      (SD_PFAN.init dep wid (phi == "nano") P.fpn).in_features.2.2 =
      .ok ⟨n, hh, ww, d5⟩ := rfl
  obtain ⟨f1, f2, f3, hfuse, hf1, hf2, hf3⟩ :=
    fuse_shapes dep wid (phi == "nano") P.fpn e1 e2 e3 e4 n hh ww hpos wpos
      d3 d4 d5 hd3 hd4 hd5
  obtain ⟨o1, o2, o3, hhead, ho1, ho2, ho3⟩ :=
    head_forward3 nc wid (phi == "nano") P.head n (4 * hh) (4 * ww)
      (2 * hh) (2 * ww) hh ww (by omega) (by omega) (by omega) (by omega)
      hpos wpos f1 f2 f3 hf1 hf2 hf3
  refine ⟨o1, o2, o3, ?_, ho1, ho2, ho3⟩
  simp only [hinit, exBind_ok, YoloBody.forwardOnMap, SD_PFAN.forwardOnMap,
    hmap, hlk1, hlk2, hlk3, hfuse, hhead, exBind_ok]

/-! ## Per-scale locality of the head loop -/

theorem exBind_err (e : NetErr) (f : β → Except NetErr γ) :
    (Except.error e : Except NetErr β).bind f = .error e := rfl

/-- A successful head pass produces exactly one output per input. -/
theorem headForwardAux_length {ss : List (YOLOXHeadScale α)}
    {ins outs : List (Tensor α)} (h : headForwardAux ss ins = .ok outs) :
    outs.length = ins.length := by
  induction ins generalizing ss outs with
  | nil =>
      unfold headForwardAux at h
      simp only [Except.ok.injEq] at h
      subst h
      rfl
  | cons x xs ih =>
      cases ss with
      | nil => simp [headForwardAux] at h
      | cons s ss =>
          unfold headForwardAux at h
          cases h1 : s.forwardScale x with
          | error e => rw [h1, exBind_err] at h; exact absurd h (by simp)
          | ok o =>
              rw [h1, exBind_ok] at h
              cases h2 : headForwardAux ss xs with
              | error e => rw [h2, exBind_err] at h; exact absurd h (by simp)
              | ok os =>
                  rw [h2, exBind_ok] at h
                  simp only [Except.ok.injEq] at h
                  subst h
                  simp [ih h2]

/-- In a successful head pass, the `k`-th output is produced by applying
the `k`-th scale module to the `k`-th input alone. -/
theorem headForwardAux_get {ss : List (YOLOXHeadScale α)}
    {ins outs : List (Tensor α)} (h : headForwardAux ss ins = .ok outs) :
    ∀ (k : Nat) (x : Tensor α), ins[k]? = some x →
      ∃ s o, ss[k]? = some s ∧ s.forwardScale x = .ok o ∧ outs[k]? = some o := by
  induction ins generalizing ss outs with
  | nil => intro k x hk; simp at hk
  | cons y xs ih =>
      cases ss with
      | nil => simp [headForwardAux] at h
      | cons s ss =>
          unfold headForwardAux at h
          cases h1 : s.forwardScale y with
          | error e => rw [h1, exBind_err] at h; exact absurd h (by simp)
          | ok o =>
              rw [h1, exBind_ok] at h
              cases h2 : headForwardAux ss xs with
              | error e => rw [h2, exBind_err] at h; exact absurd h (by simp)
              | ok os =>
                  rw [h2, exBind_ok] at h
                  simp only [Except.ok.injEq] at h
                  subst h
                  intro k x hk
                  cases k with
                  | zero =>
                      simp only [List.getElem?_cons_zero, Option.some.injEq] at hk
                      subst hk
                      exact ⟨s, o, by simp, h1, by simp⟩
                  | succ k =>
                      simp only [List.getElem?_cons_succ] at hk ⊢
                      exact ih h2 k x hk

/-! ## Profile-table case analysis -/

/-- Enumerate the width table. -/
theorem width_mem_cases {phi : String} {wid : Mult}
    (h : (phi, wid) ∈ width_table) :
    (phi = "nano" ∧ wid = ⟨250⟩) ∨ (phi = "tiny" ∧ wid = ⟨375⟩) ∨
    (phi = "s" ∧ wid = ⟨500⟩) ∨ (phi = "m" ∧ wid = ⟨750⟩) ∨
    (phi = "l" ∧ wid = ⟨1000⟩) ∨ (phi = "x" ∧ wid = ⟨1250⟩) := by
  simpa [width_table, Prod.ext_iff] using h

/-- Enumerate the depth table. -/
theorem depth_mem_cases {phi : String} {dep : Mult}
    (h : (phi, dep) ∈ depth_table) :
    (phi = "nano" ∧ dep = ⟨330⟩) ∨ (phi = "tiny" ∧ dep = ⟨330⟩) ∨
    (phi = "s" ∧ dep = ⟨330⟩) ∨ (phi = "m" ∧ dep = ⟨670⟩) ∨
    (phi = "l" ∧ dep = ⟨1000⟩) ∨ (phi = "x" ∧ dep = ⟨1330⟩) := by
  simpa [depth_table, Prod.ext_iff] using h

/-- A width-table entry determines the `width_dict[phi]` lookup and
guarantees a matching `depth_dict[phi]` lookup. -/
theorem width_mem_lookup {phi : String} {wid : Mult}
    (h : (phi, wid) ∈ width_table) :
    width_table.lookup phi = some wid ∧
    ∃ dep, depth_table.lookup phi = some dep := by
  rcases width_mem_cases h with ⟨h1, h2⟩ | ⟨h1, h2⟩ | ⟨h1, h2⟩ | ⟨h1, h2⟩ |
    ⟨h1, h2⟩ | ⟨h1, h2⟩ <;> subst h1 <;> subst h2 <;>
    exact ⟨rfl, _, rfl⟩

/-- The four concatenation-alignment equations of the fusion graph hold at
every width of the profile table (each scaled product is exact, so the
truncating scaling distributes over the sums the graph needs). -/
theorem alignment_eqs {phi : String} {wid : Mult}
    (h : (phi, wid) ∈ width_table) :
    (intScale 512 wid + intScale 512 wid = intScale (2 * 512) wid) ∧
    (intScale 256 wid + intScale (512 / 2) wid = intScale (2 * 256) wid) ∧
    (intScale (2 * 512) wid + intScale (2 * 512) wid = intScale (4 * 512) wid) ∧
    (intScale 1024 wid + intScale 1024 wid = intScale (2 * 1024) wid) := by
  rcases width_mem_cases h with ⟨h1, h2⟩ | ⟨h1, h2⟩ | ⟨h1, h2⟩ | ⟨h1, h2⟩ |
    ⟨h1, h2⟩ | ⟨h1, h2⟩ <;> subst h2 <;> decide

/-! ## Claim C1 -/

/-- C1 (counterexample): the claim asserts that `upsample_M_to_H` projects
to `High/2` scaled channels, i.e. int-scaled 128 at base.  At table width
1.0 the source constructs it with `out_channels = int(in_channels[1] // 2 *
width) = 256`, not `int(256 / 2 * width) = 128`, so the claim is false at
this width (the input-channel part, `2*Mid` scaled, does hold). -/
theorem C1_counterexample :
    ("l", (⟨1000⟩ : Mult)) ∈ width_table ∧
    (SD_PFAN.init ⟨1000⟩ ⟨1000⟩ false (constFPN ())).upsample_M_to_H.inCh =
      intScale (2 * 512) ⟨1000⟩ ∧
    (SD_PFAN.init ⟨1000⟩ ⟨1000⟩ false (constFPN ())).upsample_M_to_H.outCh = 256 ∧
    intScale (256 / 2) ⟨1000⟩ = 128 ∧
    (SD_PFAN.init ⟨1000⟩ ⟨1000⟩ false (constFPN ())).upsample_M_to_H.outCh ≠
      intScale (256 / 2) ⟨1000⟩ := by
  decide

/-- C1 (amended): in the Mid→High path the transposed-convolution upsample
is constructed with input channels `2*Mid` scaled and output channels
`Mid//2` scaled (int-scaled 256 at base — which coincides with the base
High count, not with `High/2`), for every width multiplier in the profile
table. -/
theorem C1_upsample_channels (phi : String) (wid : Mult)
    (hw : (phi, wid) ∈ width_table) (dep : Mult) (dw : Bool)
    (P : SD_PFANParams α) :
    (SD_PFAN.init dep wid dw P).upsample_M_to_H.inCh = intScale (2 * 512) wid ∧
    (SD_PFAN.init dep wid dw P).upsample_M_to_H.outCh = intScale (512 / 2) wid ∧
    intScale (512 / 2) wid = intScale 256 wid ∧
    intScale (512 / 2) wid ≠ intScale (256 / 2) wid := by
  refine ⟨rfl, rfl, ?_, ?_⟩ <;>
    (rcases width_mem_cases hw with ⟨h1, h2⟩ | ⟨h1, h2⟩ | ⟨h1, h2⟩ | ⟨h1, h2⟩ |
      ⟨h1, h2⟩ | ⟨h1, h2⟩ <;> subst h2 <;> decide)

/-- C1 (witness): the amended statement at profile "l" (width 1.0). -/
theorem C1_upsample_channels_witness :
    (SD_PFAN.init ⟨1000⟩ ⟨1000⟩ false (constFPN ())).upsample_M_to_H.inCh =
      intScale (2 * 512) ⟨1000⟩ ∧
    (SD_PFAN.init ⟨1000⟩ ⟨1000⟩ false (constFPN ())).upsample_M_to_H.outCh =
      intScale (512 / 2) ⟨1000⟩ ∧
    intScale (512 / 2) ⟨1000⟩ = intScale 256 ⟨1000⟩ ∧
    intScale (512 / 2) ⟨1000⟩ ≠ intScale (256 / 2) ⟨1000⟩ :=
  C1_upsample_channels "l" ⟨1000⟩ (by decide) ⟨1000⟩ false (constFPN ())

/-! ## Claim C4 -/

/-- C4: for every width multiplier of the profile table and every base
channel-count formula of the source, the implementation's truncating
`int(c * width)` equals round-to-nearest (each product is exact:
`1000 * intScale c w = c * w.milli`), and the same uniform rule makes all
four concatenation points align. -/
theorem C4_uniform_scaling (phi : String) (wid : Mult)
    (hw : (phi, wid) ∈ width_table) :
    (∀ c ∈ baseChannelCounts,
      intScale c wid = roundScale c wid ∧
      1000 * intScale c wid = c * wid.milli) ∧
    (intScale 512 wid + intScale 512 wid = intScale (2 * 512) wid) ∧
    (intScale 256 wid + intScale (512 / 2) wid = intScale (2 * 256) wid) ∧
    (intScale (2 * 512) wid + intScale (2 * 512) wid = intScale (4 * 512) wid) ∧
    (intScale 1024 wid + intScale 1024 wid = intScale (2 * 1024) wid) := by
  rcases width_mem_cases hw with ⟨h1, h2⟩ | ⟨h1, h2⟩ | ⟨h1, h2⟩ | ⟨h1, h2⟩ |
    ⟨h1, h2⟩ | ⟨h1, h2⟩ <;> subst h2 <;> decide

/-- C4 (witness): the uniform-scaling statement at profile "tiny"
(width 0.375, the only non-trivially fractional width). -/
theorem C4_uniform_scaling_witness :
    (∀ c ∈ baseChannelCounts,
      intScale c ⟨375⟩ = roundScale c ⟨375⟩ ∧
      1000 * intScale c ⟨375⟩ = c * 375) ∧
    (intScale 512 ⟨375⟩ + intScale 512 ⟨375⟩ = intScale (2 * 512) ⟨375⟩) ∧
    (intScale 256 ⟨375⟩ + intScale (512 / 2) ⟨375⟩ = intScale (2 * 256) ⟨375⟩) ∧
    (intScale (2 * 512) ⟨375⟩ + intScale (2 * 512) ⟨375⟩ = intScale (4 * 512) ⟨375⟩) ∧
    (intScale 1024 ⟨375⟩ + intScale 1024 ⟨375⟩ = intScale (2 * 1024) ⟨375⟩) :=
  C4_uniform_scaling "tiny" ⟨375⟩ (by decide)

/-! ## Claim C7 -/

/-- A name outside the six table names is not a key of `depth_dict`. -/
theorem depth_lookup_none {phi : String}
    (h : phi ∉ ["nano", "tiny", "s", "m", "l", "x"]) :
    depth_table.lookup phi = none := by
  simp only [List.mem_cons, List.not_mem_nil, or_false, not_or] at h
  obtain ⟨h1, h2, h3, h4, h5, h6⟩ := h
  have g1 : (phi == "nano") = false := beq_eq_false_iff_ne.mpr h1
  have g2 : (phi == "tiny") = false := beq_eq_false_iff_ne.mpr h2
  have g3 : (phi == "s") = false := beq_eq_false_iff_ne.mpr h3
  have g4 : (phi == "m") = false := beq_eq_false_iff_ne.mpr h4
  have g5 : (phi == "l") = false := beq_eq_false_iff_ne.mpr h5
  have g6 : (phi == "x") = false := beq_eq_false_iff_ne.mpr h6
  simp [depth_table, List.lookup, g1, g2, g3, g4, g5, g6]

/-- A name outside the six table names is not a key of `width_dict`. -/
theorem width_lookup_none {phi : String}
    (h : phi ∉ ["nano", "tiny", "s", "m", "l", "x"]) :
    width_table.lookup phi = none := by
  simp only [List.mem_cons, List.not_mem_nil, or_false, not_or] at h
  obtain ⟨h1, h2, h3, h4, h5, h6⟩ := h
  have g1 : (phi == "nano") = false := beq_eq_false_iff_ne.mpr h1
  have g2 : (phi == "tiny") = false := beq_eq_false_iff_ne.mpr h2
  have g3 : (phi == "s") = false := beq_eq_false_iff_ne.mpr h3
  have g4 : (phi == "m") = false := beq_eq_false_iff_ne.mpr h4
  have g5 : (phi == "l") = false := beq_eq_false_iff_ne.mpr h5
  have g6 : (phi == "x") = false := beq_eq_false_iff_ne.mpr h6
  simp [width_table, List.lookup, g1, g2, g3, g4, g5, g6]

/-- C7: every profile name outside {nano, tiny, s, m, l, x} fails at
construction with `UNKNOWN_PROFILE` (the `Except` result carries no
constructed submodule), and for every profile in the table the
constructor selects exactly the table's (depth, width) pair and builds
`SD_PFAN` and `YOLOXHead` with that width and with the depthwise flag set
exactly for "nano". -/
theorem C7_profile_selection {α : Type} :
    (∀ phi : String, phi ∉ ["nano", "tiny", "s", "m", "l", "x"] →
      ∀ (nc : Nat) (P : YoloParams α),
      YoloBody.init nc phi P = .error .unknownProfile) ∧
    (∀ phi dep, (phi, dep) ∈ depth_table → ∀ (nc : Nat) (P : YoloParams α),
      ∃ wid, (phi, wid) ∈ width_table ∧
        YoloBody.init nc phi P =
          .ok ⟨SD_PFAN.init dep wid (phi == "nano") P.fpn,
               YOLOXHead.init nc wid (phi == "nano") P.head⟩ ∧
        (((phi == "nano") = true) ↔ phi = "nano")) := by
  refine ⟨?_, ?_⟩
  · intro phi hphi nc P
    unfold YoloBody.init
    rw [depth_lookup_none hphi, width_lookup_none hphi]
  intro phi dep h nc P
  rcases depth_mem_cases h with ⟨h1, h2⟩ | ⟨h1, h2⟩ | ⟨h1, h2⟩ | ⟨h1, h2⟩ |
    ⟨h1, h2⟩ | ⟨h1, h2⟩ <;> subst h1 <;> subst h2
  · exact ⟨⟨250⟩, by decide, rfl, by decide⟩
  · exact ⟨⟨375⟩, by decide, rfl, by decide⟩
  · exact ⟨⟨500⟩, by decide, rfl, by decide⟩
  · exact ⟨⟨750⟩, by decide, rfl, by decide⟩
  · exact ⟨⟨1000⟩, by decide, rfl, by decide⟩
  · exact ⟨⟨1250⟩, by decide, rfl, by decide⟩

/-- C7 (witness): "huge" is rejected; "nano" selects (0.33, 0.25) with
depthwise on. -/
theorem C7_profile_selection_witness :
    YoloBody.init 80 "huge" (constParams ()) = .error .unknownProfile ∧
    ∃ wid, ("nano", wid) ∈ width_table ∧
      YoloBody.init 80 "nano" (constParams ()) =
        .ok ⟨SD_PFAN.init ⟨330⟩ wid ("nano" == "nano") (constParams ()).fpn,
             YOLOXHead.init 80 wid ("nano" == "nano") (constParams ()).head⟩ ∧
      ((("nano" == "nano") = true) ↔ ("nano" : String) = "nano") :=
  ⟨C7_profile_selection.1 "huge" (by decide) 80 (constParams ()),
   C7_profile_selection.2 "nano" ⟨330⟩ (by decide) 80 (constParams ())⟩

/-! ## Claim C8 -/

/-- C8: if the backbone's output mapping lacks any of the three required
feature levels "dark3"/"dark4"/"dark5", the fusion forward call fails with
`MISSING_FEATURE_LEVEL` — for arbitrary tensors in the mapping and
arbitrary learned parameters, i.e. the failure does not depend on (and is
surfaced before) any gating/resampling/concatenation/projection step. -/
theorem C8_missing_level (dep wid : Mult) (dw : Bool) (P : SD_PFANParams α)
    (mp : List (String × Tensor α))
    (h : mp.lookup "dark3" = none ∨ mp.lookup "dark4" = none ∨
         mp.lookup "dark5" = none) :
    (SD_PFAN.init dep wid dw P).forwardOnMap mp = .error .missingFeatureLevel := by
  rcases h with h | h | h
  · simp [SD_PFAN.forwardOnMap, SD_PFAN.init, lookupLevel, h, Except.bind]
  · cases h3 : mp.lookup "dark3" with
    | none => simp [SD_PFAN.forwardOnMap, SD_PFAN.init, lookupLevel, h3, Except.bind]
    | some t =>
        simp [SD_PFAN.forwardOnMap, SD_PFAN.init, lookupLevel, h3, h, Except.bind]
  · cases h3 : mp.lookup "dark3" with
    | none => simp [SD_PFAN.forwardOnMap, SD_PFAN.init, lookupLevel, h3, Except.bind]
    | some t =>
        cases h4 : mp.lookup "dark4" with
        | none =>
            simp [SD_PFAN.forwardOnMap, SD_PFAN.init, lookupLevel, h3, h4, Except.bind]
        | some u =>
            simp [SD_PFAN.forwardOnMap, SD_PFAN.init, lookupLevel, h3, h4, h, Except.bind]

/-- C8 (witness): a mapping containing only "dark3" and "dark4" (with
shape-invalid tensors, which is irrelevant) produces
`MISSING_FEATURE_LEVEL`. -/
theorem C8_missing_level_witness :
    (SD_PFAN.init ⟨1000⟩ ⟨1000⟩ false (constFPN ())).forwardOnMap
      [("dark3", ⟨1, 4, 4, []⟩), ("dark4", ⟨1, 2, 2, []⟩)] =
    .error .missingFeatureLevel :=
  C8_missing_level ⟨1000⟩ ⟨1000⟩ false (constFPN ())
    [("dark3", ⟨1, 4, 4, []⟩), ("dark4", ⟨1, 2, 2, []⟩)]
    (Or.inr (Or.inr (by decide)))

/-! ## Claim C9 -/

/-- C9: forward evaluation is deterministic — the fusion network (both the
fusion graph on feature triples and its map-based forward) and the full
model are functions of the parameters and inputs alone: identical
parameters and identical inputs give identical outputs. -/
theorem C9_determinism (m1 m2 : SD_PFAN α) (t1 t2 t3 u1 u2 u3 : Tensor α)
    (b1 b2 : YoloBody α) (mp1 mp2 : List (String × Tensor α))
    (hm : m1 = m2) (h1 : t1 = u1) (h2 : t2 = u2) (h3 : t3 = u3)
    (hb : b1 = b2) (hmp : mp1 = mp2) :
    m1.fuse t1 t2 t3 = m2.fuse u1 u2 u3 ∧
    m1.forwardOnMap mp1 = m2.forwardOnMap mp2 ∧
    b1.forwardOnMap mp1 = b2.forwardOnMap mp2 := by
  subst hm; subst h1; subst h2; subst h3; subst hb; subst hmp
  exact ⟨rfl, rfl, rfl⟩

/-- C9 (witness): two textually separate calls with equal parameters and
inputs agree, at a concrete model and input. -/
theorem C9_determinism_witness :
    (SD_PFAN.init ⟨330⟩ ⟨250⟩ true (constFPN ())).fuse ⟨1, 8, 8, []⟩
        ⟨1, 4, 4, []⟩ ⟨1, 2, 2, []⟩ =
      (SD_PFAN.init ⟨330⟩ ⟨250⟩ true (constFPN ())).fuse ⟨1, 8, 8, []⟩
        ⟨1, 4, 4, []⟩ ⟨1, 2, 2, []⟩ ∧
    (SD_PFAN.init ⟨330⟩ ⟨250⟩ true (constFPN ())).forwardOnMap [] =
      (SD_PFAN.init ⟨330⟩ ⟨250⟩ true (constFPN ())).forwardOnMap [] ∧
    (YoloBody.mk (SD_PFAN.init ⟨330⟩ ⟨250⟩ true (constFPN ()))
        (YOLOXHead.init 1 ⟨250⟩ true (fun _ => constHead ()))).forwardOnMap [] =
      (YoloBody.mk (SD_PFAN.init ⟨330⟩ ⟨250⟩ true (constFPN ()))
        (YOLOXHead.init 1 ⟨250⟩ true (fun _ => constHead ()))).forwardOnMap [] :=
  C9_determinism _ _ _ _ _ _ _ _ _ _ _ _ rfl rfl rfl rfl rfl rfl

/-! ## Claim C3 -/

/-- C3: for every profile width, `fuse` on three backbone feature tensors
with the scaled base channel counts 256/512/1024 and stride-8/16/32
spatial sizes returns exactly three tensors in (High, Mid, Low) order,
with the scaled base channel counts of their level and the spatial sizes
of the corresponding inputs. -/
theorem C3_fuse_contract (phi : String) (wid : Mult)
    (hw : (phi, wid) ∈ width_table) (dep : Mult) (dw : Bool)
    (P : SD_PFANParams α) (n hh ww : Nat) (hpos : 0 < hh) (wpos : 0 < ww)
    (l1 l2 l3 : List α)
    (hc1 : l1.length = intScale 256 wid)
    (hc2 : l2.length = intScale 512 wid)
    (hc3 : l3.length = intScale 1024 wid) :
    ∃ o1 o2 o3 : List α,
      (SD_PFAN.init dep wid dw P).fuse ⟨n, 4 * hh, 4 * ww, l1⟩
          ⟨n, 2 * hh, 2 * ww, l2⟩ ⟨n, hh, ww, l3⟩ =
        .ok (⟨n, 4 * hh, 4 * ww, o1⟩, ⟨n, 2 * hh, 2 * ww, o2⟩, ⟨n, hh, ww, o3⟩) ∧
      o1.length = intScale 256 wid ∧ o2.length = intScale 512 wid ∧
      o3.length = intScale 1024 wid := by
  obtain ⟨e1, e2, e3, e4⟩ := alignment_eqs hw
  exact fuse_shapes dep wid dw P e1 e2 e3 e4 n hh ww hpos wpos l1 l2 l3 hc1 hc2 hc3

set_option maxRecDepth 100000 in
/-- C3 (witness): the concrete scenario at width 1.0 — inputs
(1,256,80,80), (1,512,40,40), (1,1024,20,20) fuse to outputs of exactly
those shapes. -/
theorem C3_fuse_contract_witness :
    ∃ o1 o2 o3 : List Unit,
      (SD_PFAN.init ⟨1000⟩ ⟨1000⟩ false (constFPN ())).fuse
          ⟨1, 80, 80, List.replicate 256 ()⟩ ⟨1, 40, 40, List.replicate 512 ()⟩
          ⟨1, 20, 20, List.replicate 1024 ()⟩ =
        .ok (⟨1, 80, 80, o1⟩, ⟨1, 40, 40, o2⟩, ⟨1, 20, 20, o3⟩) ∧
      o1.length = 256 ∧ o2.length = 512 ∧ o3.length = 1024 :=
  C3_fuse_contract "l" ⟨1000⟩ (by decide) ⟨1000⟩ false (constFPN ()) 1 20 20
    (by decide) (by decide) (List.replicate 256 ()) (List.replicate 512 ())
    (List.replicate 1024 ()) (by decide) (by decide) (by decide)

/-! ## Claim C6 -/

/-- C6: for every profile width, the channel counts declared at
construction make each of the fusion network's concatenation points
consistent — the operand channel counts of each concatenation sum to the
declared input channel count of the consuming operator — and consequently
the forward pass on inputs of the contracted shapes reaches no
channel-mismatch error. -/
theorem C6_channel_consistency (phi : String) (wid : Mult)
    (hw : (phi, wid) ∈ width_table) (dep : Mult) (dw : Bool)
    (P : SD_PFANParams α) :
    ((SD_PFAN.init dep wid dw P).upsample_M_to_H.inCh =
      (SD_PFAN.init dep wid dw P).feat2_attention.inCh +
        (SD_PFAN.init dep wid dw P).upsample_L_to_M.outCh) ∧
    ((SD_PFAN.init dep wid dw P).downsample_M_to_L.inCh =
      (SD_PFAN.init dep wid dw P).feat2_attention.inCh +
        (SD_PFAN.init dep wid dw P).upsample_L_to_M.outCh) ∧
    ((SD_PFAN.init dep wid dw P).downsample_H_to_M.inCh =
      (SD_PFAN.init dep wid dw P).feat1_attention.inCh +
        (SD_PFAN.init dep wid dw P).upsample_M_to_H.outCh) ∧
    ((SD_PFAN.init dep wid dw P).resize_H.inCh =
      (SD_PFAN.init dep wid dw P).feat1_attention.inCh +
        (SD_PFAN.init dep wid dw P).upsample_M_to_H.outCh) ∧
    ((SD_PFAN.init dep wid dw P).resize_M.inCh =
      (SD_PFAN.init dep wid dw P).downsample_H_to_M.outCh +
        ((SD_PFAN.init dep wid dw P).feat2_attention.inCh +
          (SD_PFAN.init dep wid dw P).upsample_L_to_M.outCh)) ∧
    ((SD_PFAN.init dep wid dw P).resize_L.inCh =
      (SD_PFAN.init dep wid dw P).feat3_attention.inCh +
        (SD_PFAN.init dep wid dw P).downsample_M_to_L.outCh) ∧
    (∀ (n hh ww : Nat), 0 < hh → 0 < ww → ∀ l1 l2 l3 : List α,
      l1.length = intScale 256 wid → l2.length = intScale 512 wid →
      l3.length = intScale 1024 wid →
      ∃ o1 o2 o3 : List α,
        (SD_PFAN.init dep wid dw P).fuse ⟨n, 4 * hh, 4 * ww, l1⟩
            ⟨n, 2 * hh, 2 * ww, l2⟩ ⟨n, hh, ww, l3⟩ =
          .ok (⟨n, 4 * hh, 4 * ww, o1⟩, ⟨n, 2 * hh, 2 * ww, o2⟩,
               ⟨n, hh, ww, o3⟩)) := by
  obtain ⟨e1, e2, e3, e4⟩ := alignment_eqs hw
  refine ⟨?_, ?_, ?_, ?_, ?_, ?_, ?_⟩
  · exact (show intScale (2 * 512) wid =
      intScale 512 wid + intScale 512 wid from e1.symm)
  · exact (show intScale (2 * 512) wid =
      intScale 512 wid + intScale 512 wid from e1.symm)
  · exact (show intScale (2 * 256) wid =
      intScale 256 wid + intScale (512 / 2) wid from e2.symm)
  · exact (show intScale (2 * 256) wid =
      intScale 256 wid + intScale (512 / 2) wid from e2.symm)
  · show intScale (4 * 512) wid =
      intScale (2 * 512) wid + (intScale 512 wid + intScale 512 wid)
    rw [e1]; exact e3.symm
  · exact (show intScale (2 * 1024) wid =
      intScale 1024 wid + intScale 1024 wid from e4.symm)
  · intro n hh ww hpos wpos l1 l2 l3 hc1 hc2 hc3
    obtain ⟨o1, o2, o3, hok, _, _, _⟩ :=
      fuse_shapes dep wid dw P e1 e2 e3 e4 n hh ww hpos wpos l1 l2 l3 hc1 hc2 hc3
    exact ⟨o1, o2, o3, hok⟩

set_option maxRecDepth 100000 in
/-- C6 (witness): the consistency statement at profile "nano"
(width 0.25), with the forward-success part instantiated at stride-8 size
(4, 4). -/
theorem C6_channel_consistency_witness :
    ((SD_PFAN.init ⟨330⟩ ⟨250⟩ true (constFPN (α := Unit) ())).upsample_M_to_H.inCh =
      (SD_PFAN.init ⟨330⟩ ⟨250⟩ true (constFPN ())).feat2_attention.inCh +
        (SD_PFAN.init ⟨330⟩ ⟨250⟩ true (constFPN ())).upsample_L_to_M.outCh) ∧
    ∃ o1 o2 o3 : List Unit,
      (SD_PFAN.init ⟨330⟩ ⟨250⟩ true (constFPN ())).fuse
          ⟨1, 4, 4, List.replicate 64 ()⟩ ⟨1, 2, 2, List.replicate 128 ()⟩
          ⟨1, 1, 1, List.replicate 256 ()⟩ =
        .ok (⟨1, 4, 4, o1⟩, ⟨1, 2, 2, o2⟩, ⟨1, 1, 1, o3⟩) := by
  have h := C6_channel_consistency "nano" ⟨250⟩ (by decide) ⟨330⟩ true
    (constFPN (α := Unit) ())
  exact ⟨h.1, h.2.2.2.2.2.2 1 1 1 (by decide) (by decide)
    (List.replicate 64 ()) (List.replicate 128 ()) (List.replicate 256 ())
    (by decide) (by decide) (by decide)⟩

/-! ## Claim C2 -/

set_option maxRecDepth 1000000 in
/-- C2 (counterexample): the claim's shape law quantifies over all even
stride-8 sizes, but at the table width 0.25 ("nano") and the even size
(6, 6) the stride-16 level has odd size 3 while the upsampled stride-32
level has even size, so the first concatenation fails with a shape
mismatch instead of producing three prediction tensors. -/
theorem C2_counterexample :
    ("nano", (⟨250⟩ : Mult)) ∈ width_table ∧ 6 % 2 = 0 ∧
    (YoloBody.init 1 "nano" (constParams ())).bind (fun m =>
      m.forwardOnMap (backboneOutput 1 6 6 (List.replicate 64 ())
        (List.replicate 128 ()) (List.replicate 256 ()))) =
      .error .shapeMismatch := by
  refine ⟨by decide, by decide, by decide⟩

/-- C2 (amended): for every width multiplier in the profile table, every
batch size, every `num_classes` and every stride-8 spatial size `(h, w0)`
divisible by 4 (so that the stride-16 and stride-32 levels are themselves
exact halvings), the model's forward pass over the spec-modelled backbone
mapping returns exactly three prediction tensors in (High, Mid, Low)
order with `4 + 1 + num_classes` channels and spatial sizes `(h, w0)`,
`(h/2, w0/2)`, `(h/4, w0/4)`. -/
theorem C2_shape_law (phi : String) (wid : Mult)
    (hw : (phi, wid) ∈ width_table) (nc n h w0 : Nat)
    (h4 : h % 4 = 0) (w4 : w0 % 4 = 0) (hp : 0 < h) (wp : 0 < w0)
    (P : YoloParams α) (d3 d4 d5 : List α)
    (hd3 : d3.length = intScale 256 wid)
    (hd4 : d4.length = intScale 512 wid)
    (hd5 : d5.length = intScale 1024 wid) :
    ∃ o1 o2 o3 : List α,
      (YoloBody.init nc phi P).bind (fun m =>
        m.forwardOnMap (backboneOutput n h w0 d3 d4 d5)) =
      .ok [⟨n, h, w0, o1⟩, ⟨n, h / 2, w0 / 2, o2⟩, ⟨n, h / 4, w0 / 4, o3⟩] ∧
      o1.length = 4 + 1 + nc ∧ o2.length = 4 + 1 + nc ∧
      o3.length = 4 + 1 + nc := by
  obtain ⟨hlk, dep, hdep⟩ := width_mem_lookup hw
  obtain ⟨e1, e2, e3, e4⟩ := alignment_eqs hw
  obtain ⟨t, ht⟩ : ∃ t, h = 4 * t := ⟨h / 4, by omega⟩
  obtain ⟨u, hu⟩ : ∃ u, w0 = 4 * u := ⟨w0 / 4, by omega⟩
  subst ht; subst hu
  rw [show 4 * t / 2 = 2 * t by omega, show 4 * u / 2 = 2 * u by omega,
      show 4 * t / 4 = t by omega, show 4 * u / 4 = u by omega]
  exact yolo_forward_shapes phi dep wid hdep hlk e1 e2 e3 e4 nc n t u
    (by omega) (by omega) P d3 d4 d5 hd3 hd4 hd5

set_option maxRecDepth 1000000 in
/-- C2 (witness): the amended shape law at profile "l" (width 1.0),
`num_classes = 80`, batch 1 and stride-8 size (4, 4). -/
theorem C2_shape_law_witness :
    ∃ o1 o2 o3 : List Unit,
      (YoloBody.init 80 "l" (constParams ())).bind (fun m =>
        m.forwardOnMap (backboneOutput 1 4 4 (List.replicate 256 ())
          (List.replicate 512 ()) (List.replicate 1024 ()))) =
      .ok [⟨1, 4, 4, o1⟩, ⟨1, 2, 2, o2⟩, ⟨1, 1, 1, o3⟩] ∧
      o1.length = 4 + 1 + 80 ∧ o2.length = 4 + 1 + 80 ∧
      o3.length = 4 + 1 + 80 :=
  C2_shape_law "l" ⟨1000⟩ (by decide) 80 1 4 4 (by decide) (by decide)
    (by decide) (by decide) (constParams ()) (List.replicate 256 ())
    (List.replicate 512 ()) (List.replicate 1024 ())
    (by decide) (by decide) (by decide)

/-! ## Claim C5 -/

/-- Splitting a three-part channel concatenation at [0:4], [4:5],
[5:5+nc] recovers the three parts exactly when their lengths are 4, 1 and
`nc`. -/
theorem sliceChannels_cat3 (n hh ww : Nat) (R O C : List β)
    (hR : R.length = 4) (hO : O.length = 1) (nc : Nat) (hC : C.length = nc) :
    sliceChannels (⟨n, hh, ww, R ++ O ++ C⟩ : Tensor β) 0 4 = ⟨n, hh, ww, R⟩ ∧
    sliceChannels (⟨n, hh, ww, R ++ O ++ C⟩ : Tensor β) 4 5 = ⟨n, hh, ww, O⟩ ∧
    sliceChannels (⟨n, hh, ww, R ++ O ++ C⟩ : Tensor β) 5 (5 + nc) =
      ⟨n, hh, ww, C⟩ := by
  have hRO : (R ++ O).length = 5 := by simp [hR, hO]
  refine ⟨?_, ?_, ?_⟩
  · simp only [sliceChannels, List.drop_zero, Nat.sub_zero, Tensor.mk.injEq,
      true_and]
    rw [List.append_assoc, ← hR, List.take_left]
  · simp only [sliceChannels, Tensor.mk.injEq, true_and]
    rw [show 5 - 4 = 1 by omega, List.append_assoc, ← hR, List.drop_left,
        ← hO, List.take_left]
  · simp only [sliceChannels, Tensor.mk.injEq, true_and]
    rw [Nat.add_sub_cancel_left, ← hRO, List.drop_left, ← hC, List.take_length]

/-- C5: for every scale of the head, the output is the channel
concatenation `[reg_output, obj_output, cls_output]`, so slicing channels
[0:4], [4:5], [5:5+num_classes] of the scale's output recovers exactly the
regression, objectness and classification tensors produced by the
branches, with no channel bleed. -/
theorem C5_channel_split (nc : Nat) (wid : Mult) (dw : Bool)
    (pw : Nat → HeadScaleParams α) (in_channels : List Nat) (k : Nat)
    (s : YOLOXHeadScale α)
    (hs : (YOLOXHead.init nc wid dw pw in_channels).scales[k]? = some s)
    (x x1 cf1 clsFeat clsOut r1 regFeat regOut objOut : Tensor α)
    (h0 : s.stem.apply x = .ok x1)
    (h1 : s.cls_conv1.apply x1 = .ok cf1)
    (h2 : s.cls_conv2.apply cf1 = .ok clsFeat)
    (h3 : s.cls_pred.apply clsFeat = .ok clsOut)
    (h4 : s.reg_conv1.apply x1 = .ok r1)
    (h5 : s.reg_conv2.apply r1 = .ok regFeat)
    (h6 : s.reg_pred.apply regFeat = .ok regOut)
    (h7 : s.obj_pred.apply regFeat = .ok objOut) :
    ∃ out, s.forwardScale x = .ok out ∧
      out.chans.length = 4 + 1 + nc ∧
      sliceChannels out 0 4 = regOut ∧
      sliceChannels out 4 5 = objOut ∧
      sliceChannels out 5 (5 + nc) = clsOut := by
  obtain ⟨i, rfl⟩ : ∃ i, s = mkHeadScale nc wid (in_channels.getD i 0) dw (pw i) := by
    simp only [YOLOXHead.init] at hs
    rw [List.getElem?_map] at hs
    cases hr : (List.range in_channels.length)[k]? with
    | none => rw [hr] at hs; simp at hs
    | some i =>
        rw [hr] at hs
        simp only [Option.map_some', Option.some.injEq] at hs
        exact ⟨i, hs.symm⟩
  obtain ⟨hl0, rfl⟩ := Conv2d.apply_inv h0
  obtain ⟨hl1, rfl⟩ := Conv2d.apply_inv h1
  obtain ⟨hl2, rfl⟩ := Conv2d.apply_inv h2
  obtain ⟨hl3, rfl⟩ := Conv2d.apply_inv h3
  obtain ⟨hl4, rfl⟩ := Conv2d.apply_inv h4
  obtain ⟨hl5, rfl⟩ := Conv2d.apply_inv h5
  obtain ⟨hl6, rfl⟩ := Conv2d.apply_inv h6
  obtain ⟨hl7, rfl⟩ := Conv2d.apply_inv h7
  simp only [mkHeadScale, mkConvBlock_eq, mkBaseConv] at h0 h1 h2 h3 h4 h5 h6 h7 ⊢
  simp only [YOLOXHeadScale.forwardScale, h0, h1, h2, h3, h4, h5, h6, h7,
    exBind_ok, catChannels_shape]
  refine ⟨_, rfl, ?_, ?_, ?_, ?_⟩
  · simp; omega
  · exact (sliceChannels_cat3 _ _ _ _ _ _ (by simp) (by simp) nc (by simp)).1
  · exact (sliceChannels_cat3 _ _ _ _ _ _ (by simp) (by simp) nc (by simp)).2.1
  · exact (sliceChannels_cat3 _ _ _ _ _ _ (by simp) (by simp) nc (by simp)).2.2

set_option maxRecDepth 1000000 in
/-- C5 (witness): the split at scale 0 of a concrete head (nano width,
`num_classes = 2`, Unit planes, so tensors are determined by their
shapes). -/
theorem C5_channel_split_witness :
    ∃ out, (mkHeadScale 2 ⟨250⟩ 256 false (constHead ())).forwardScale
        ⟨1, 1, 1, List.replicate 64 ()⟩ = .ok out ∧
      out.chans.length = 4 + 1 + 2 ∧
      sliceChannels out 0 4 = ⟨1, 1, 1, List.replicate 4 ()⟩ ∧
      sliceChannels out 4 5 = ⟨1, 1, 1, List.replicate 1 ()⟩ ∧
      sliceChannels out 5 (5 + 2) = ⟨1, 1, 1, List.replicate 2 ()⟩ :=
  C5_channel_split 2 ⟨250⟩ false (fun _ => constHead ()) [256, 512, 1024] 0
    (mkHeadScale 2 ⟨250⟩ 256 false (constHead ())) rfl
    ⟨1, 1, 1, List.replicate 64 ()⟩ ⟨1, 1, 1, List.replicate 64 ()⟩
    ⟨1, 1, 1, List.replicate 64 ()⟩ ⟨1, 1, 1, List.replicate 64 ()⟩
    ⟨1, 1, 1, List.replicate 2 ()⟩ ⟨1, 1, 1, List.replicate 64 ()⟩
    ⟨1, 1, 1, List.replicate 64 ()⟩ ⟨1, 1, 1, List.replicate 4 ()⟩
    ⟨1, 1, 1, List.replicate 1 ()⟩
    (by decide) (by decide) (by decide) (by decide) (by decide) (by decide)
    (by decide) (by decide)

/-! ## Claim C10 -/

/-- C10: in the decoupled head, the `k`-th prediction depends only on the
`k`-th input and the scale-`k` modules: two successful forward calls whose
scale-`k` modules and `k`-th inputs agree produce equal `k`-th outputs,
and each successful call produces exactly one output per input. -/
theorem C10_head_locality (hd1 hd2 : YOLOXHead α)
    (ins1 ins2 outs1 outs2 : List (Tensor α)) (k : Nat)
    (h1 : hd1.forward ins1 = .ok outs1) (h2 : hd2.forward ins2 = .ok outs2)
    (hsc : hd1.scales[k]? = hd2.scales[k]?) (hin : ins1[k]? = ins2[k]?) :
    outs1[k]? = outs2[k]? ∧ outs1.length = ins1.length ∧
    outs2.length = ins2.length := by
  have hl1 : outs1.length = ins1.length := headForwardAux_length h1
  have hl2 : outs2.length = ins2.length := headForwardAux_length h2
  refine ⟨?_, hl1, hl2⟩
  cases hx : ins1[k]? with
  | none =>
      have hx2 : ins2[k]? = none := by rw [← hin]; exact hx
      have hk1 : ins1.length ≤ k := List.getElem?_eq_none_iff.mp hx
      have hk2 : ins2.length ≤ k := List.getElem?_eq_none_iff.mp hx2
      rw [List.getElem?_eq_none_iff.mpr (by omega),
          List.getElem?_eq_none_iff.mpr (by omega)]
  | some x =>
      obtain ⟨s, o, hs, ho, hout⟩ := headForwardAux_get h1 k x hx
      have hx2 : ins2[k]? = some x := by rw [← hin]; exact hx
      obtain ⟨s2, o2, hs2, ho2, hout2⟩ := headForwardAux_get h2 k x hx2
      have hse : s = s2 := by
        rw [hsc] at hs
        rw [hs] at hs2
        exact (Option.some.injEq _ _).mp hs2
      subst hse
      rw [ho] at ho2
      have : o = o2 := (Except.ok.injEq _ _).mp ho2
      subst this
      rw [hout, hout2]

set_option maxRecDepth 1000000 in
/-- C10 (witness): two forward calls of a concrete head on input triples
that differ at index 0 but agree at index 1 produce equal index-1 outputs
and one output per input. -/
theorem C10_head_locality_witness :
    ∃ outs1 outs2 : List (Tensor Bool),
      headC10.forward insA = .ok outs1 ∧ headC10.forward insB = .ok outs2 ∧
      outs1[1]? = outs2[1]? ∧ outs1.length = 3 ∧ outs2.length = 3 := by
  obtain ⟨outs1, h1⟩ : ∃ o, headC10.forward insA = .ok o := ⟨_, rfl⟩
  obtain ⟨outs2, h2⟩ : ∃ o, headC10.forward insB = .ok o := ⟨_, rfl⟩
  obtain ⟨hk, hn1, hn2⟩ :=
    C10_head_locality headC10 headC10 insA insB outs1 outs2 1 h1 h2 rfl
      (by decide)
  exact ⟨outs1, outs2, h1, h2, hk, by rw [hn1]; rfl, by rw [hn2]; rfl⟩

end PLPNet
